import Mathlib

/-!
Verification development for the `SmartDataframe` generation-to-execution
pipeline (`pandasai/smart_dataframe/__init__.py`).

The Python source is shallowly embedded: generated code is modelled as a
parsed list of top-level statements (a raw string that does not parse is the
distinguished `Code.invalid`); the execution environment is an association
list from binding names to values; `exec` is an executable interpreter over
the statement language; fallible operations return `Except PyErr`.

Expressions are modelled as literals and variable reads, which is sufficient
for the statement-level sanitization, retry and dispatch properties at
issue.  Host objects that the model does not look inside (imported modules,
the builtins table) are opaque `Value.host` values.
-/

namespace PandasAI

/-- Runtime values flowing through the pipeline.  `table` is a
caller-supplied dataframe, identified abstractly; `host` is an opaque host
object (an imported module, the restricted builtins mapping, ...). -/
inductive Value where
  | none
  | num (n : Int)
  | str (s : String)
  | list (vs : List Value)
  | dict (entries : List (String × Value))
  | table (id : Nat)
  | host (tag : String)

/-- The Python exceptions the pipeline can raise or observe.  `badImport`
is `BadImportError` from `_check_imports`; `syntaxError` is `ast.parse`
failing inside `_clean_code` (or `exec` receiving unparseable retry code);
`unboundLocal` is `UnboundLocalError`; `importBlocked` is the `ImportError`
raised when an import statement is executed in the restricted environment;
`generationFailure` is the external generation service failing; `hostOp` is
an operation on an opaque host value whose outcome the model does not
define (no claim depends on it). -/
inductive PyErr where
  | nameError (n : String)
  | typeError (msg : String)
  | keyError (k : String)
  | indexError
  | valueError (msg : String)
  | badImport (library : String)
  | syntaxError
  | unboundLocal (n : String)
  | importBlocked (m : String)
  | generationFailure (msg : String)
  | hostOp (msg : String)
deriving DecidableEq, Repr

/-- Rendering of an exception as the text interpolated into the failure
message (`str(exception)` in the source). -/
def errStr : PyErr → String
  | .nameError n => "name " ++ n ++ " is not defined"
  | .typeError m => m
  | .keyError k => k
  | .indexError => "list index out of range"
  | .valueError m => m
  | .badImport l => "Generated code includes import of " ++ l ++ " which is not in whitelist."
  | .syntaxError => "invalid syntax"
  | .unboundLocal n => "local variable " ++ n ++ " referenced before assignment"
  | .importBlocked m => "import of " ++ m ++ " blocked: no import mechanism in restricted builtins"
  | .generationFailure m => m
  | .hostOp m => m

/-- The execution namespace: an association list, most recent binding
first (mirrors a Python `dict` observed through lookups). -/
abbrev Env := List (String × Value)

/-- Dictionary lookup. -/
def envGet : Env → String → Option Value
  | [], _ => Option.none
  | (k, v) :: rest, n => if k = n then some v else envGet rest n

/-- Dictionary update (`environment[k] = v`): the new binding shadows any
older one. -/
def envSet (env : Env) (k : String) (v : Value) : Env := (k, v) :: env

/-- Expressions: literals and variable reads. -/
inductive Expr where
  | const (v : Value)
  | nameRef (id : String)

/-- Evaluation of an expression: a read of an unbound name raises
`NameError`. -/
def evalExpr (env : Env) : Expr → Except PyErr Value
  | .const v => .ok v
  | .nameRef id =>
    match envGet env id with
    | some v => .ok v
    | Option.none => .error (.nameError id)

/-- Assignment targets (`ast.Assign.targets` elements): a plain name
(`ast.Name`) or a tuple of names (`ast.Tuple` of `ast.Name`s, as in
`x, df = ...`). -/
inductive Target where
  | name (id : String)
  | tup (ids : List String)
deriving DecidableEq, Repr

/-- One `alias` node of an import statement: `name` optionally bound
`as asname`. -/
structure ImportAlias where
  name : String
  asname : Option String
deriving DecidableEq, Repr

/-- Top-level statements of generated code.  Import statements carry a
non-empty alias list (`first :: rest`), as `ast.Import`/`ast.ImportFrom`
guarantee; assignments carry a non-empty target list
(`ast.Assign.targets`).  `exprStmt` is a bare expression statement. -/
inductive Stmt where
  | imp (first : ImportAlias) (rest : List ImportAlias)
  | impFrom (module : String) (first : ImportAlias) (rest : List ImportAlias)
  | assign (first : Target) (rest : List Target) (value : Expr)
  | exprStmt (e : Expr)

/-- A generated code string: either it parses into a statement list, or it
is syntactically invalid (`ast.parse` raises). -/
inductive Code where
  | prog (stmts : List Stmt)
  | invalid

/-- Binding one assignment target to a value.  Tuple targets unpack list
values of matching length and assign nothing on a mismatch, as CPython
does. -/
def bindTarget (env : Env) (t : Target) (v : Value) : Env × Option PyErr :=
  match t with
  | .name s => (envSet env s v, Option.none)
  | .tup ids =>
    match v with
    | .list vs =>
      if vs.length = ids.length then
        ((ids.zip vs).foldl (fun e p => envSet e p.1 p.2) env, Option.none)
      else (env, some (.valueError "wrong number of values to unpack"))
    | _ => (env, some (.typeError "cannot unpack non-sequence"))

/-- Binding every target of an assignment, left to right, stopping at the
first failure and keeping the bindings already made. -/
def bindTargets (env : Env) (v : Value) : List Target → Env × Option PyErr
  | [] => (env, Option.none)
  | t :: ts =>
    match bindTarget env t v with
    | (env', Option.none) => bindTargets env' v ts
    | r => r

/-- Executing one statement.  An import statement executed in the
restricted environment fails: the builtins namespace injected by
`_get_environment` holds only the whitelisted builtin names plus
`__build_class__` and `__name__`.  Modelled from the spec: the builtin
whitelist is a static list of safe builtin names and exposes no import
mechanism, so `exec` of an import raises. -/
def execStmt (env : Env) : Stmt → Env × Option PyErr
  | .imp first _ => (env, some (.importBlocked first.name))
  | .impFrom m _ _ => (env, some (.importBlocked m))
  | .assign first rest value =>
    match evalExpr env value with
    | .error e => (env, some e)
    | .ok v => bindTargets env v (first :: rest)
  | .exprStmt e =>
    match evalExpr env e with
    | .error er => (env, some er)
    | .ok _ => (env, Option.none)

/-- Executing a statement list as one unit: stops at the first unhandled
exception; the environment keeps every mutation made up to that point
(Python `exec` mutates the namespace in place). -/
def execStmts (env : Env) : List Stmt → Env × Option PyErr
  | [] => (env, Option.none)
  | s :: rest =>
    match execStmt env s with
    | (env', Option.none) => execStmts env' rest
    | (env', some e) => (env', some e)

/-- Executing a code value: unparseable code raises `SyntaxError`. -/
def execCode (env : Env) : Code → Env × Option PyErr
  | .invalid => (env, some .syntaxError)
  | .prog ss => execStmts env ss

/-! ## Code Sanitizer (`_clean_code`, `_is_df_overwrite`, `_check_imports`) -/

/-- One record appended to `self._additional_dependencies` for an approved
import. -/
structure Dependency where
  module : String
  name : String
  binding : String
deriving DecidableEq, Repr

/-- The match test `re.match(r"df\d{0,2}$", id)`: the name is `df`
followed by at most two digits and nothing else. -/
def isDfName (s : String) : Bool :=
  match s.toList with
  | 'd' :: 'f' :: rest => rest.length ≤ 2 && rest.all Char.isDigit
  | _ => false

/-- `_is_df_overwrite`: the node is an `ast.Assign`, its first target is an
`ast.Name`, and that name matches the reserved-table pattern. -/
def isDfOverwrite : Stmt → Bool
  | .assign (.name id) _ _ => isDfName id
  | _ => false

/-- `module.split(".")[0]`: the top-level library of a dotted module
path. -/
def topLevel (module : String) : String :=
  String.mk (module.toList.takeWhile (fun c => c ≠ '.'))

/-- The dependency recorded for one import alias:
`{"module": module, "name": alias.name, "alias": alias.asname or alias.name}`. -/
def mkDep (module : String) (al : ImportAlias) : Dependency :=
  ⟨module, al.name, al.asname.getD al.name⟩

/-- `_check_imports`: for a plain import the checked module is the FIRST
alias's name (`node.names[0].name`); for a from-import it is
`node.module`.  The `pandas` library is dropped silently; a module whose
top-level library is in the whitelist (static list plus configured custom
additions) yields one `Dependency` per alias; a library in neither the
whitelist nor the builtin whitelist raises `BadImportError`; a library
only in the builtin whitelist is dropped silently. -/
def checkImports (wl custom wb : List String) : Stmt → Except PyErr (List Dependency)
  | .imp first rest =>
    checkImportsModule wl custom wb first.name (first :: rest)
  | .impFrom module first rest =>
    checkImportsModule wl custom wb module (first :: rest)
  | _ => .ok []
where
  checkImportsModule (wl custom wb : List String) (module : String)
      (names : List ImportAlias) : Except PyErr (List Dependency) :=
    let library := topLevel module
    if library = "pandas" then .ok []
    else if (wl ++ custom).contains library then
      .ok (names.map (mkDep module))
    else if (wb.contains library) = false then
      .error (.badImport library)
    else .ok []

/-- Whether a statement is an import statement. -/
def isImport : Stmt → Bool
  | .imp _ _ => true
  | .impFrom _ _ _ => true
  | _ => false

/-- The statement walk of `_clean_code`: import statements are checked and
dropped (their dependencies collected in order), reserved-name overwrites
are dropped, everything else is kept verbatim in order. -/
def cleanStmts (wl custom wb : List String) :
    List Stmt → Except PyErr (List Stmt × List Dependency)
  | [] => .ok ([], [])
  | s :: rest =>
    if isImport s then
      match checkImports wl custom wb s with
      | .error e => .error e
      | .ok deps =>
        match cleanStmts wl custom wb rest with
        | .error e => .error e
        | .ok (body, deps') => .ok (body, deps ++ deps')
    else if isDfOverwrite s then cleanStmts wl custom wb rest
    else
      match cleanStmts wl custom wb rest with
      | .error e => .error e
      | .ok (body, deps) => .ok (s :: body, deps)

/-- `_clean_code` on a raw code string: `ast.parse` failure surfaces as a
`SyntaxError`; otherwise the statement walk runs and the result is
re-serialized (re-serialization round-trips the tree, so the output is
modelled by the kept statement list itself). -/
def cleanCode (wl custom wb : List String) : Code → Except PyErr (List Stmt × List Dependency)
  | .invalid => .error .syntaxError
  | .prog ss => cleanStmts wl custom wb ss

/-! ## Environment Builder (`_get_environment`) -/

/-- `_get_environment`: `pd` is bound to the table library, each collected
dependency is bound under its alias (the attribute-vs-module fallback of
the source is abstracted into the opaque binding value), and
`__builtins__` is bound to the restricted builtins mapping. -/
def getEnvironment (deps : List Dependency) : Env :=
  envSet
    (deps.foldl (fun env d => envSet env d.binding (.host (d.module ++ "." ++ d.name)))
      (envSet [] "pd" (.host "pandas")))
    "__builtins__" (.host "builtins")

/-- The multi-table update
`{f"df{i}": df for i, df in enumerate(data_frame, start=1)}`. -/
def bindMulti (env : Env) (ts : List Value) : Env :=
  (ts.enum).foldl (fun e p => envSet e ("df" ++ toString (p.1 + 1)) p.2) env

/-! ## Configuration and external collaborators -/

/-- The configuration snapshot consulted by the pipeline.  The two
whitelist fields model `WHITELISTED_LIBRARIES` and `WHITELISTED_BUILTINS`.
Modelled from the spec: those two constants live outside the provided
source (`pandasai/constants.py`); the spec describes them only as static
sets of approved top-level module names and approved builtin names, so
they are carried as parameters here. -/
structure Cfg where
  maxRetries : Nat := 3
  useErrorCorrectionFramework : Bool := true
  enforcePrivacy : Bool := false
  enableCache : Bool := true
  conversationalAnswer : Bool := false
  saveCharts : Bool := false
  customWhitelistedDependencies : List String := []
  whitelistedLibraries : List String := []
  whitelistedBuiltins : List String := []

/-- External collaborators of one `SmartDataframe` instance: the
generation service (initial generation, correction, and the
conversational-answer call), the middleware chain, the cache, and the
chart-saving code transform.  Each is an opaque function, as the spec
treats them. -/
structure Ext where
  llmGenerateCode : String → Except PyErr Code
  llmCorrect : Code → PyErr → Code
  llmCall : String → Value → String
  middlewareChain : Code → Except PyErr Code
  cacheGet : String → Option Code
  addSaveChart : Code → Code

/-- `run_code`'s `data_frame` argument: a single table or a list of
tables (`multiple = isinstance(data_frame, list)`). -/
inductive DataInput where
  | single (t : Value)
  | multiple (ts : List Value)

/-! ## Self-Correction Loop and Execution Sandbox (`run_code`) -/

/-- Observable outcome of the `while count < max_retries` loop.
`result` is `.error e` exactly when the loop re-raises (error correction
disabled); `env` is the shared namespace after the loop; `execTrace`
lists the code values passed to `exec`, in order; `envTrace` lists the
namespace each attempt started from; `corrections` lists the corrected
code values returned by the generation service, in order; `succeeded`
records whether some attempt ran to completion (the `break`). -/
structure LoopOut where
  result : Except PyErr Unit
  env : Env
  execTrace : List Code
  envTrace : List Env
  corrections : List Code
  succeeded : Bool

/-- The retry loop of `run_code`, recursing on the remaining budget
`max_retries - count`.  On an execution exception with error correction
enabled, `_retry_run_code(code, e)` asks the generation service for a
corrected code string — `code` here is the original (pre-sanitization)
code string, which is only reassigned on success — and the loop continues
with that corrected string as the next `code_to_run`, in the same
(mutated) namespace.  With error correction disabled the exception is
re-raised. -/
def runLoop (llm : Code → PyErr → Code) (useECF : Bool) (origCode : Code) :
    Nat → Env → Code → LoopOut
  | 0, env, _ => ⟨.ok (), env, [], [], [], false⟩
  | Nat.succ fuel, env, codeToRun =>
    match execCode env codeToRun with
    | (env', Option.none) => ⟨.ok (), env', [codeToRun], [env], [], true⟩
    | (env', some e) =>
      if useECF then
        let corr := llm origCode e
        let r := runLoop llm useECF origCode fuel env' corr
        ⟨r.result, r.env, codeToRun :: r.execTrace, env :: r.envTrace,
         corr :: r.corrections, r.succeeded⟩
      else ⟨.error e, env', [codeToRun], [env], [], false⟩

/-- Observable outcome of `run_code`: its return value or raised
exception, plus the loop observables. -/
structure RunOut where
  result : Except PyErr Value
  env : Env
  execTrace : List Code
  envTrace : List Env
  corrections : List Code
  succeeded : Bool

/-- `run_code`.  The chart-saving transform is applied when configured;
the code is sanitized once; the environment is built once; then either
the multi-table branch binds `df1, df2, ...` — and falls through to
`return result` at function level, where the local `result` was never
assigned on this path, so the call raises `UnboundLocalError` without
ever executing the code — or the single-table branch binds `df` and runs
the retry loop, finally returning `environment.get("result", None)`. -/
def runCode (cfg : Cfg) (ext : Ext) (code : Code) (dataFrame : DataInput)
    (useECF : Bool) : RunOut :=
  let code := if cfg.saveCharts then ext.addSaveChart code else code
  match cleanCode cfg.whitelistedLibraries cfg.customWhitelistedDependencies
      cfg.whitelistedBuiltins code with
  | .error e => ⟨.error e, [], [], [], [], false⟩
  | .ok (body, deps) =>
    let env0 := getEnvironment deps
    match dataFrame with
    | .multiple ts =>
      ⟨.error (.unboundLocal "result"), bindMulti env0 ts, [], [], [], false⟩
    | .single t =>
      let lo := runLoop ext.llmCorrect useECF code cfg.maxRetries
        (envSet env0 "df" t) (.prog body)
      ⟨lo.result.map (fun _ => (envGet lo.env "result").getD .none),
       lo.env, lo.execTrace, lo.envTrace, lo.corrections, lo.succeeded⟩

/-! ## Result Classifier and Query Orchestrator (`query`) -/

/-- `len(value)`. -/
def lenV : Value → Except PyErr Nat
  | .none => .error (.typeError "object of type NoneType has no len()")
  | .num _ => .error (.typeError "object of type int has no len()")
  | .str s => .ok s.length
  | .list vs => .ok vs.length
  | .dict es => .ok es.length
  | .table _ => .error (.hostOp "len of an opaque table is not modelled")
  | .host _ => .error (.hostOp "len of an opaque host object is not modelled")

/-- `value[i]` for an integer index. -/
def indexV (v : Value) (i : Nat) : Except PyErr Value :=
  match v with
  | .list vs =>
    match vs.get? i with
    | some x => .ok x
    | Option.none => .error .indexError
  | .str s =>
    match s.toList.get? i with
    | some c => .ok (.str (String.mk [c]))
    | Option.none => .error .indexError
  | .dict _ => .error (.keyError (toString i))
  | .none => .error (.typeError "NoneType object is not subscriptable")
  | .num _ => .error (.typeError "int object is not subscriptable")
  | .table _ => .error (.hostOp "table indexing is not modelled")
  | .host _ => .error (.hostOp "host object indexing is not modelled")

/-- `value[key]` for a string key. -/
def subscriptV (v : Value) (key : String) : Except PyErr Value :=
  match v with
  | .dict es =>
    match es.lookup key with
    | some x => .ok x
    | Option.none => .error (.keyError key)
  | .str _ => .error (.typeError "string indices must be integers")
  | .list _ => .error (.typeError "list indices must be integers or slices, not str")
  | .none => .error (.typeError "NoneType object is not subscriptable")
  | .num _ => .error (.typeError "int object is not subscriptable")
  | .table _ => .error (.hostOp "table subscripting is not modelled")
  | .host _ => .error (.hostOp "host object subscripting is not modelled")

/-- Python `value == "s"`: true exactly for the equal string. -/
def isStrEq (v : Value) (s : String) : Bool :=
  match v with
  | .str t => t = s
  | _ => false

/-- `conversational_answer`: with privacy enforcement the raw answer
value is returned unchanged; otherwise the generation service restates it
and the call returns that string. -/
def conversationalAnswerF (cfg : Cfg) (ext : Ext) (question : String)
    (answer : Value) : Value :=
  if cfg.enforcePrivacy then answer
  else .str (ext.llmCall question answer)

/-- What a `query` call can return to the caller. -/
inductive Answer where
  | value (v : Value)
  | wrapped (v : Value)
  | noneAnswer
  | message (s : String)

/-- The text built by the outermost `except Exception` handler. -/
def failureMessage (e : PyErr) : String :=
  "Unfortunately, I was not able to answer your question, because of the following error:\n\n"
    ++ errStr e ++ "\n"

/-- The body of the `try` block of `query`: cache lookup (a hit skips
generation), prompt construction and generation (context building
abstracted into the collaborator), middleware chain, `run_code` on the
single instance table, then result inspection: `len(results) > 1` picks
`results[1]` as the output record, the conversational branch replaces the
output with the (string) conversational answer, and the record's `type`
tag dispatches to wrapping, plotting (which returns `None`), or the raw
`result` field.  When `len(results) <= 1` the function body ends without
a `return`, producing `None`. -/
def queryBody (cfg : Cfg) (ext : Ext) (q : String) (df : Value) :
    Except PyErr Answer := do
  let code ←
    match (if cfg.enableCache then ext.cacheGet q else Option.none) with
    | some c => Except.ok c
    | Option.none => ext.llmGenerateCode q
  let code ← ext.middlewareChain code
  let out := runCode cfg ext code (.single df) cfg.useErrorCorrectionFramework
  let results ← out.result
  let n ← lenV results
  if 1 < n then
    let output ← indexV results 1
    let output ←
      if cfg.conversationalAnswer then do
        let raw ← subscriptV output "result"
        Except.ok (conversationalAnswerF cfg ext q raw)
      else Except.ok output
    let t ← subscriptV output "type"
    if isStrEq t "dataframe" then do
      let r ← subscriptV output "result"
      Except.ok (Answer.wrapped r)
    else if isStrEq t "plot" then do
      let _ ← subscriptV output "result"
      Except.ok Answer.noneAnswer
    else do
      let r ← subscriptV output "result"
      Except.ok (Answer.value r)
  else
    Except.ok Answer.noneAnswer

/-- `query`: the whole pipeline under one `try`; any exception is caught
at this single outermost boundary and converted to the plain-text failure
message. -/
def query (cfg : Cfg) (ext : Ext) (q : String) (df : Value) : Answer :=
  match queryBody cfg ext q df with
  | .ok a => a
  | .error e => .message (failureMessage e)

/-! ## Auxiliary predicates used to state the claims -/

/-- Whether executing an assignment with this target rebinds the name
`n`. -/
def targetBinds (t : Target) (n : String) : Bool :=
  match t with
  | .name id => id = n
  | .tup ids => ids.contains n

/-- Whether executing this statement can rebind the name `n` (only
assignment statements bind names in the modelled language). -/
def stmtWritesName (s : Stmt) (n : String) : Bool :=
  match s with
  | .assign first rest _ => (first :: rest).any (fun t => targetBinds t n)
  | _ => false

/-! ## Concrete scenarios used by witnesses and counterexamples -/

/-- A code string whose only statement raises `NameError` when
executed. -/
def codeBoom : Code := .prog [.exprStmt (.nameRef "boom")]

/-- A code string that binds an auxiliary name and then raises. -/
def codeMarker : Code :=
  .prog [.assign (.name "marker") [] (.const (.num 5)), .exprStmt (.nameRef "boom")]

/-- A corrected code string that reads the name bound by a previous failed
attempt. -/
def corrSeen : Code := .prog [.assign (.name "seen") [] (.nameRef "marker")]

/-- A corrected code string that overwrites the reserved `df` binding and
then raises. -/
def cBad : Code := .prog [.assign (.name "df") [] (.const (.num 0)), .exprStmt (.nameRef "boom")]

/-- `df = 3`: a single-`Name`-target assignment matching the reserved
pattern. -/
def s1 : Stmt := .assign (.name "df") [] (.const (.num 3))

/-- `x, df = (1, 2)`: a tuple-target assignment that also rebinds `df`. -/
def s2 : Stmt := .assign (.tup ["x", "df"]) [] (.const (.list [.num 1, .num 2]))

/-- `x = 1`: an assignment not touching any reserved name. -/
def sx : Stmt := .assign (.name "x") [] (.const (.num 1))

/-- `import numpy, os`: a plain import with two aliases; only the first
module name is inspected by `_check_imports`. -/
def impNumpyOs : Stmt := .imp ⟨"numpy", Option.none⟩ [⟨"os", Option.none⟩]

/-- A code string that binds `result` to a classifier record of kind
`string` carrying the scalar `42`. -/
def codeC9 : Code :=
  .prog [.assign (.name "result") []
    (.const (.list [.none, .dict [("type", .str "string"), ("result", .num 42)]]))]

/-- A code string that would bind `result` if it were ever executed. -/
def codeRes : Code := .prog [.assign (.name "result") [] (.const (.num 1))]

/-- A configuration with retry budget 2, cache disabled and empty
whitelists. -/
def cfg2 : Cfg := { maxRetries := 2, enableCache := false }

/-- The default configuration with cache disabled. -/
def cfgPlain : Cfg := { enableCache := false }

/-- Conversational-answer mode on, privacy enforcement off. -/
def cfgConv : Cfg := { enableCache := false, conversationalAnswer := true }

/-- Conversational-answer mode on, privacy enforcement on. -/
def cfgConvPriv : Cfg :=
  { enableCache := false, conversationalAnswer := true, enforcePrivacy := true }

/-- Collaborators whose generation service always returns `codeBoom`. -/
def extBoom : Ext where
  llmGenerateCode := fun _ => .ok codeBoom
  llmCorrect := fun _ _ => codeBoom
  llmCall := fun _ _ => "chat"
  middlewareChain := fun c => .ok c
  cacheGet := fun _ => Option.none
  addSaveChart := fun c => c

/-- Collaborators whose correction service returns `corrSeen`. -/
def extSeen : Ext where
  llmGenerateCode := fun _ => .ok codeMarker
  llmCorrect := fun _ _ => corrSeen
  llmCall := fun _ _ => "chat"
  middlewareChain := fun c => .ok c
  cacheGet := fun _ => Option.none
  addSaveChart := fun c => c

/-- Collaborators whose correction service returns `cBad`. -/
def extBad : Ext where
  llmGenerateCode := fun _ => .ok codeBoom
  llmCorrect := fun _ _ => cBad
  llmCall := fun _ _ => "chat"
  middlewareChain := fun c => .ok c
  cacheGet := fun _ => Option.none
  addSaveChart := fun c => c

/-- Collaborators whose generation service returns the single statement
`x = 1`. -/
def extSx : Ext where
  llmGenerateCode := fun _ => .ok (.prog [.assign (.name "x") [] (.const (.num 1))])
  llmCorrect := fun _ _ => .prog [.assign (.name "x") [] (.const (.num 1))]
  llmCall := fun _ _ => "chat"
  middlewareChain := fun c => .ok c
  cacheGet := fun _ => Option.none
  addSaveChart := fun c => c

/-- Collaborators whose generation service returns `codeC9` and whose
conversational call returns a fixed sentence. -/
def extC9 : Ext where
  llmGenerateCode := fun _ => .ok codeC9
  llmCorrect := fun _ _ => codeC9
  llmCall := fun _ _ => "The answer is 42."
  middlewareChain := fun c => .ok c
  cacheGet := fun _ => Option.none
  addSaveChart := fun c => c

/-! ## Library lemmas about environments and execution -/

theorem envGet_envSet_self (env : Env) (k : String) (v : Value) :
    envGet (envSet env k v) k = some v := by
  simp [envGet, envSet]

theorem envGet_envSet_ne (env : Env) (k n : String) (v : Value)
    (h : k ≠ n) : envGet (envSet env k v) n = envGet env n := by
  simp [envGet, envSet, h]

theorem envGet_foldl_envSet (n : String) :
    ∀ (ps : List (String × Value)) (env : Env), (∀ p ∈ ps, p.1 ≠ n) →
      envGet (ps.foldl (fun e p => envSet e p.1 p.2) env) n = envGet env n := by
  intro ps
  induction ps with
  | nil => intro env _; rfl
  | cons p ps ih =>
    intro env h
    simp only [List.foldl_cons]
    rw [ih _ (fun q hq => h q (List.mem_cons_of_mem _ hq)),
      envGet_envSet_ne _ _ _ _ (h p (List.mem_cons_self _ _))]

theorem bindTarget_preserve (env : Env) (t : Target) (v : Value) (n : String)
    (h : targetBinds t n = false) :
    envGet (bindTarget env t v).1 n = envGet env n := by
  cases t with
  | name id =>
    simp only [targetBinds, decide_eq_false_iff_not] at h
    simp [bindTarget, envGet_envSet_ne _ _ _ _ h]
  | tup ids =>
    simp only [targetBinds] at h
    cases v with
    | list vs =>
      by_cases hl : vs.length = ids.length
      · simp only [bindTarget, hl, if_pos rfl]
        refine envGet_foldl_envSet n _ env (fun p hp => ?_)
        intro hpn
        have hmem : p.1 ∈ ids := (List.of_mem_zip hp).1
        rw [hpn] at hmem
        simp only [List.elem_eq_mem, decide_eq_false_iff_not] at h
        exact h hmem
      · simp [bindTarget, hl]
    | none => simp [bindTarget]
    | num m => simp [bindTarget]
    | str s => simp [bindTarget]
    | dict es => simp [bindTarget]
    | table i => simp [bindTarget]
    | host tag => simp [bindTarget]

theorem bindTargets_preserve (v : Value) (n : String) :
    ∀ (ts : List Target) (env : Env), (∀ t ∈ ts, targetBinds t n = false) →
      envGet (bindTargets env v ts).1 n = envGet env n := by
  intro ts
  induction ts with
  | nil => intro env _; rfl
  | cons t ts ih =>
    intro env h
    have ht := h t (List.mem_cons_self _ _)
    rcases hb : bindTarget env t v with ⟨env', err⟩
    have henv : envGet env' n = envGet env n := by
      have := bindTarget_preserve env t v n ht
      rw [hb] at this
      exact this
    cases err with
    | none =>
      simp only [bindTargets, hb]
      rw [ih env' (fun u hu => h u (List.mem_cons_of_mem _ hu)), henv]
    | some e => simp only [bindTargets, hb]; exact henv

theorem execStmt_preserve (env : Env) (s : Stmt) (n : String)
    (h : stmtWritesName s n = false) :
    envGet (execStmt env s).1 n = envGet env n := by
  cases s with
  | imp first rest => rfl
  | impFrom m first rest => rfl
  | exprStmt e =>
    simp only [execStmt]
    rcases evalExpr env e with er | v <;> rfl
  | assign first rest value =>
    simp only [stmtWritesName, List.any_eq_false] at h
    simp only [execStmt]
    rcases evalExpr env value with er | v
    · rfl
    · exact bindTargets_preserve v n (first :: rest) env
        (fun t ht => Bool.eq_false_iff.mpr (h t ht))

theorem execStmts_preserve (n : String) :
    ∀ (ss : List Stmt) (env : Env), (∀ s ∈ ss, stmtWritesName s n = false) →
      envGet (execStmts env ss).1 n = envGet env n := by
  intro ss
  induction ss with
  | nil => intro env _; rfl
  | cons s rest ih =>
    intro env h
    have hs := h s (List.mem_cons_self _ _)
    rcases he : execStmt env s with ⟨env', err⟩
    have henv : envGet env' n = envGet env n := by
      have := execStmt_preserve env s n hs
      rw [he] at this
      exact this
    cases err with
    | none =>
      simp only [execStmts, he]
      rw [ih env' (fun u hu => h u (List.mem_cons_of_mem _ hu)), henv]
    | some e => simp only [execStmts, he]; exact henv

theorem cleanStmts_mem (wl custom wb : List String) :
    ∀ (ss body : List Stmt) (deps : List Dependency),
      cleanStmts wl custom wb ss = .ok (body, deps) →
      ∀ s ∈ body, s ∈ ss ∧ isImport s = false ∧ isDfOverwrite s = false := by
  intro ss
  induction ss with
  | nil =>
    intro body deps h s hs
    simp only [cleanStmts] at h
    cases h
    cases hs
  | cons a rest ih =>
    intro body deps h s hs
    by_cases hImp : isImport a
    · simp only [cleanStmts, if_pos hImp] at h
      rcases hci : checkImports wl custom wb a with e | ds
      · rw [hci] at h; cases h
      · rw [hci] at h
        rcases hcs : cleanStmts wl custom wb rest with e | pr
        · rw [hcs] at h; cases h
        · rcases pr with ⟨body', deps'⟩
          rw [hcs] at h
          cases h
          rcases ih _ _ hcs s hs with ⟨hm, h1, h2⟩
          exact ⟨List.mem_cons_of_mem _ hm, h1, h2⟩
    · by_cases hDf : isDfOverwrite a
      · simp only [cleanStmts, if_neg hImp, if_pos hDf] at h
        rcases ih body deps h s hs with ⟨hm, h1, h2⟩
        exact ⟨List.mem_cons_of_mem _ hm, h1, h2⟩
      · simp only [cleanStmts, if_neg hImp, if_neg hDf] at h
        rcases hcs : cleanStmts wl custom wb rest with e | pr
        · rw [hcs] at h; cases h
        · rcases pr with ⟨body', deps'⟩
          rw [hcs] at h
          cases h
          rcases List.mem_cons.mp hs with heq | hmem
          · subst heq
            exact ⟨List.mem_cons_self _ _,
              Bool.eq_false_iff.mpr hImp, Bool.eq_false_iff.mpr hDf⟩
          · rcases ih _ _ hcs s hmem with ⟨hm, h1, h2⟩
            exact ⟨List.mem_cons_of_mem _ hm, h1, h2⟩

/-! ## Lemmas about the retry loop -/

theorem runLoop_result_ok (llm : Code → PyErr → Code) (orig : Code) :
    ∀ (fuel : Nat) (env : Env) (c : Code),
      (runLoop llm true orig fuel env c).result = .ok () := by
  intro fuel
  induction fuel with
  | zero => intro env c; rfl
  | succ n ih =>
    intro env c
    rcases hE : execCode env c with ⟨env', err⟩
    cases err with
    | none => simp [runLoop, hE]
    | some e => simp [runLoop, hE, ih]

theorem runLoop_counts (llm : Code → PyErr → Code) (orig : Code) :
    ∀ (fuel : Nat) (env : Env) (c : Code),
      (runLoop llm true orig fuel env c).succeeded = false →
      (runLoop llm true orig fuel env c).execTrace.length = fuel ∧
      (runLoop llm true orig fuel env c).corrections.length = fuel := by
  intro fuel
  induction fuel with
  | zero => intro env c _; exact ⟨rfl, rfl⟩
  | succ n ih =>
    intro env c h
    rcases hE : execCode env c with ⟨env', err⟩
    cases err with
    | none => simp [runLoop, hE] at h
    | some e =>
      simp only [runLoop, hE, if_true] at h ⊢
      rcases ih env' (llm orig e) h with ⟨h1, h2⟩
      simp [h1, h2]

theorem runLoop_execTrace_head (llm : Code → PyErr → Code) (u : Bool) (orig : Code)
    (fuel : Nat) (env : Env) (c : Code) (h : fuel ≠ 0) :
    (runLoop llm u orig fuel env c).execTrace.get? 0 = some c := by
  cases fuel with
  | zero => exact absurd rfl h
  | succ n =>
    rcases hE : execCode env c with ⟨env', err⟩
    cases err with
    | none => simp [runLoop, hE]
    | some e =>
      cases u with
      | true => simp [runLoop, hE]
      | false => simp [runLoop, hE]

theorem runLoop_envTrace_head (llm : Code → PyErr → Code) (u : Bool) (orig : Code)
    (fuel : Nat) (env : Env) (c : Code) (h : fuel ≠ 0) :
    (runLoop llm u orig fuel env c).envTrace.get? 0 = some env := by
  cases fuel with
  | zero => exact absurd rfl h
  | succ n =>
    rcases hE : execCode env c with ⟨env', err⟩
    cases err with
    | none => simp [runLoop, hE]
    | some e =>
      cases u with
      | true => simp [runLoop, hE]
      | false => simp [runLoop, hE]

theorem runLoop_trace_corr (llm : Code → PyErr → Code) (u : Bool) (orig : Code) :
    ∀ (fuel : Nat) (env : Env) (c : Code) (i : Nat) (c' : Code),
      (runLoop llm u orig fuel env c).execTrace.get? (i + 1) = some c' →
      (runLoop llm u orig fuel env c).corrections.get? i = some c' := by
  intro fuel
  induction fuel with
  | zero => intro env c i c' h; simp [runLoop] at h
  | succ n ih =>
    intro env c i c' h
    rcases hE : execCode env c with ⟨env', err⟩
    cases err with
    | none => simp [runLoop, hE] at h
    | some e =>
      cases u with
      | false => simp [runLoop, hE] at h
      | true =>
        simp only [runLoop, hE, if_true, List.get?_cons_succ] at h ⊢
        cases i with
        | zero =>
          cases n with
          | zero => simp [runLoop] at h
          | succ m =>
            rw [runLoop_execTrace_head llm true orig (m + 1) env' (llm orig e)
              (Nat.succ_ne_zero m)] at h
            cases h
            rfl
        | succ j =>
          exact ih env' (llm orig e) j c' h

theorem runLoop_corr_llm (llm : Code → PyErr → Code) (u : Bool) (orig : Code) :
    ∀ (fuel : Nat) (env : Env) (c : Code) (i : Nat) (c' : Code),
      (runLoop llm u orig fuel env c).corrections.get? i = some c' →
      ∃ e, c' = llm orig e := by
  intro fuel
  induction fuel with
  | zero => intro env c i c' h; simp [runLoop] at h
  | succ n ih =>
    intro env c i c' h
    rcases hE : execCode env c with ⟨env', err⟩
    cases err with
    | none => simp [runLoop, hE] at h
    | some e =>
      cases u with
      | false => simp [runLoop, hE] at h
      | true =>
        simp only [runLoop, hE, if_true] at h
        cases i with
        | zero =>
          rw [List.get?_cons_zero] at h
          cases h
          exact ⟨e, rfl⟩
        | succ j =>
          rw [List.get?_cons_succ] at h
          exact ih env' (llm orig e) j c' h

theorem runLoop_env_chain (llm : Code → PyErr → Code) (u : Bool) (orig : Code) :
    ∀ (fuel : Nat) (env : Env) (c : Code) (i : Nat) (eI : Env) (cI : Code) (eNext : Env),
      (runLoop llm u orig fuel env c).envTrace.get? i = some eI →
      (runLoop llm u orig fuel env c).execTrace.get? i = some cI →
      (runLoop llm u orig fuel env c).envTrace.get? (i + 1) = some eNext →
      eNext = (execCode eI cI).1 := by
  intro fuel
  induction fuel with
  | zero => intro env c i eI cI eNext h1 _ _; simp [runLoop] at h1
  | succ n ih =>
    intro env c i eI cI eNext h1 h2 h3
    rcases hE : execCode env c with ⟨env', err⟩
    cases err with
    | none =>
      simp only [runLoop, hE] at h1 h2 h3
      cases i with
      | zero => simp at h3
      | succ j => simp at h1
    | some e =>
      cases u with
      | false =>
        simp only [runLoop, hE, if_false] at h1 h2 h3
        cases i with
        | zero => simp at h3
        | succ j => simp at h1
      | true =>
        simp only [runLoop, hE, if_true] at h1 h2 h3
        cases i with
        | zero =>
          rw [List.get?_cons_zero] at h1 h2
          cases h1
          cases h2
          rw [List.get?_cons_succ] at h3
          cases n with
          | zero => simp [runLoop] at h3
          | succ m =>
            rw [runLoop_envTrace_head llm true orig (m + 1) env' (llm orig e)
              (Nat.succ_ne_zero m)] at h3
            cases h3
            rw [hE]
        | succ j =>
          rw [List.get?_cons_succ] at h1 h2 h3
          exact ih env' (llm orig e) j eI cI eNext h1 h2 h3

/-! ## Reduction lemmas for `runCode` and `query` -/

theorem runCode_single_eq (cfg : Cfg) (ext : Ext) (code : Code) (t : Value) (u : Bool)
    (body : List Stmt) (deps : List Dependency)
    (hsave : cfg.saveCharts = false)
    (hclean : cleanCode cfg.whitelistedLibraries cfg.customWhitelistedDependencies
      cfg.whitelistedBuiltins code = .ok (body, deps)) :
    runCode cfg ext code (.single t) u =
      ⟨(runLoop ext.llmCorrect u code cfg.maxRetries
          (envSet (getEnvironment deps) "df" t) (.prog body)).result.map
            (fun _ => (envGet (runLoop ext.llmCorrect u code cfg.maxRetries
              (envSet (getEnvironment deps) "df" t) (.prog body)).env "result").getD .none),
       (runLoop ext.llmCorrect u code cfg.maxRetries
          (envSet (getEnvironment deps) "df" t) (.prog body)).env,
       (runLoop ext.llmCorrect u code cfg.maxRetries
          (envSet (getEnvironment deps) "df" t) (.prog body)).execTrace,
       (runLoop ext.llmCorrect u code cfg.maxRetries
          (envSet (getEnvironment deps) "df" t) (.prog body)).envTrace,
       (runLoop ext.llmCorrect u code cfg.maxRetries
          (envSet (getEnvironment deps) "df" t) (.prog body)).corrections,
       (runLoop ext.llmCorrect u code cfg.maxRetries
          (envSet (getEnvironment deps) "df" t) (.prog body)).succeeded⟩ := by
  simp only [runCode, hsave, Bool.false_eq_true, if_false, hclean]

theorem queryBody_lenErr (cfg : Cfg) (ext : Ext) (q : String) (df : Value)
    (code code' : Code) (v : Value) (e : PyErr)
    (hcache : cfg.enableCache = false)
    (hgen : ext.llmGenerateCode q = .ok code)
    (hmw : ext.middlewareChain code = .ok code')
    (hrun : (runCode cfg ext code' (.single df)
      cfg.useErrorCorrectionFramework).result = .ok v)
    (hlen : lenV v = .error e) :
    query cfg ext q df = .message (failureMessage e) := by
  have hbody : queryBody cfg ext q df = .error e := by
    simp only [queryBody, hcache, Bool.false_eq_true, if_false, hgen, hmw, hrun, hlen,
      bind, Except.bind]
  simp only [query, hbody]

/-! ## Claim C5 -/

/-- Claim C5: with error correction enabled, a single-table run in which no
execution attempt succeeds performs exactly `max_retries` execution
attempts and exactly `max_retries` correction requests to the generation
service; with error correction disabled, the first execution failure
re-raises immediately with zero correction requests. -/
theorem C5_retry_budget_exact :
    (∀ (cfg : Cfg) (ext : Ext) (code : Code) (t : Value)
        (body : List Stmt) (deps : List Dependency),
      cfg.saveCharts = false →
      cleanCode cfg.whitelistedLibraries cfg.customWhitelistedDependencies
        cfg.whitelistedBuiltins code = .ok (body, deps) →
      (runCode cfg ext code (.single t) true).succeeded = false →
      (runCode cfg ext code (.single t) true).execTrace.length = cfg.maxRetries ∧
      (runCode cfg ext code (.single t) true).corrections.length = cfg.maxRetries) ∧
    (∀ (cfg : Cfg) (ext : Ext) (code : Code) (t : Value)
        (body : List Stmt) (deps : List Dependency) (e : PyErr),
      cfg.saveCharts = false →
      cleanCode cfg.whitelistedLibraries cfg.customWhitelistedDependencies
        cfg.whitelistedBuiltins code = .ok (body, deps) →
      0 < cfg.maxRetries →
      (execCode (envSet (getEnvironment deps) "df" t) (.prog body)).2 = some e →
      (runCode cfg ext code (.single t) false).result = .error e ∧
      (runCode cfg ext code (.single t) false).corrections = []) := by
  constructor
  · intro cfg ext code t body deps hsave hclean hfail
    rw [runCode_single_eq cfg ext code t true body deps hsave hclean] at hfail ⊢
    exact runLoop_counts ext.llmCorrect code cfg.maxRetries _ _ hfail
  · intro cfg ext code t body deps e hsave hclean hpos hfailed
    rw [runCode_single_eq cfg ext code t false body deps hsave hclean]
    rcases Nat.exists_eq_succ_of_ne_zero (Nat.pos_iff_ne_zero.mp hpos) with ⟨n, hn⟩
    rw [hn]
    rcases hE : execCode (envSet (getEnvironment deps) "df" t) (.prog body) with ⟨env', err⟩
    rw [hE] at hfailed
    simp only at hfailed
    subst hfailed
    simp [runLoop, hE, Except.map]

/-- Closed instance of claim C5 at a concrete always-failing scenario with
retry budget 2. -/
theorem C5_witness :
    ((runCode cfg2 extBoom codeBoom (.single (.table 7)) true).execTrace.length = 2 ∧
     (runCode cfg2 extBoom codeBoom (.single (.table 7)) true).corrections.length = 2) ∧
    ((runCode cfg2 extBoom codeBoom (.single (.table 7)) false).result
        = .error (.nameError "boom") ∧
     (runCode cfg2 extBoom codeBoom (.single (.table 7)) false).corrections = []) := by
  constructor
  · exact C5_retry_budget_exact.1 cfg2 extBoom codeBoom (.table 7)
      [.exprStmt (.nameRef "boom")] [] rfl rfl rfl
  · exact C5_retry_budget_exact.2 cfg2 extBoom codeBoom (.table 7)
      [.exprStmt (.nameRef "boom")] [] (.nameError "boom") rfl rfl (by decide) rfl

/-! ## Claim C1 -/

/-- Claim C1 counterexample: on a retry, the corrected code returned by the
generation service reaches `exec` verbatim: the second executed code value
is `cBad`, whose sanitized form differs from it (its `df` overwrite is
stripped by the Sanitizer), and executing it clobbered the reserved `df`
binding at runtime — so unsanitized code reached `exec`. -/
theorem C1_counterexample :
    (runCode cfg2 extBad codeBoom (.single (.table 7)) true).execTrace.get? 1 = some cBad ∧
    cleanCode cfg2.whitelistedLibraries cfg2.customWhitelistedDependencies
      cfg2.whitelistedBuiltins cBad = .ok ([.exprStmt (.nameRef "boom")], []) ∧
    envGet (runCode cfg2 extBad codeBoom (.single (.table 7)) true).env "df"
      = some (.num 0) :=
  ⟨rfl, rfl, rfl⟩

/-- Claim C1 (amended): only the initial code string is sanitized, before
the first execution attempt; the code executed on every later attempt is
exactly the corrected code value recorded from the generation service,
passed to `exec` without re-sanitization. -/
theorem C1_retry_code_unsanitized :
    ∀ (cfg : Cfg) (ext : Ext) (code : Code) (t : Value)
      (body : List Stmt) (deps : List Dependency),
      cfg.saveCharts = false →
      cleanCode cfg.whitelistedLibraries cfg.customWhitelistedDependencies
        cfg.whitelistedBuiltins code = .ok (body, deps) →
      (cfg.maxRetries ≠ 0 →
        (runCode cfg ext code (.single t) true).execTrace.get? 0 = some (.prog body)) ∧
      (∀ (i : Nat) (c' : Code),
        (runCode cfg ext code (.single t) true).execTrace.get? (i + 1) = some c' →
        (runCode cfg ext code (.single t) true).corrections.get? i = some c') ∧
      (∀ (i : Nat) (c' : Code),
        (runCode cfg ext code (.single t) true).corrections.get? i = some c' →
        ∃ e, c' = ext.llmCorrect code e) := by
  intro cfg ext code t body deps hsave hclean
  rw [runCode_single_eq cfg ext code t true body deps hsave hclean]
  exact ⟨fun hfz => runLoop_execTrace_head ext.llmCorrect true code cfg.maxRetries _ _ hfz,
    fun i c' h => runLoop_trace_corr ext.llmCorrect true code cfg.maxRetries _ _ i c' h,
    fun i c' h => runLoop_corr_llm ext.llmCorrect true code cfg.maxRetries _ _ i c' h⟩

/-- Closed instance of the amended claim C1 at a concrete retry run. -/
theorem C1_witness :
    (runCode cfg2 extBad codeBoom (.single (.table 7)) true).execTrace.get? 0
      = some (.prog [.exprStmt (.nameRef "boom")]) ∧
    (runCode cfg2 extBad codeBoom (.single (.table 7)) true).corrections.get? 0
      = some cBad := by
  have h := C1_retry_code_unsanitized cfg2 extBad codeBoom (.table 7)
    [.exprStmt (.nameRef "boom")] [] rfl rfl
  exact ⟨h.1 (by decide), h.2.1 0 cBad rfl⟩

/-! ## Claim C2 -/

/-- Claim C2 counterexample: the code `df = 3; (x, df) = (1, 2)` contains a
top-level assignment whose single target is the name `df`, yet executing
its sanitized form overwrites the reserved `df` binding: the tuple-target
assignment is kept by the Sanitizer (only a first target that is a plain
`Name` is tested) and rebinds `df` to `2`, so the sandboxed computation no
longer reads the caller-supplied table. -/
theorem C2_counterexample :
    isDfOverwrite s1 = true ∧
    cleanStmts cfgPlain.whitelistedLibraries cfgPlain.customWhitelistedDependencies
      cfgPlain.whitelistedBuiltins [s1, s2] = .ok ([s2], []) ∧
    (runCode cfgPlain extBoom (.prog [s1, s2]) (.single (.table 7)) true).succeeded = true ∧
    envGet (runCode cfgPlain extBoom (.prog [s1, s2]) (.single (.table 7)) true).env "df"
      = some (.num 2) ∧
    Value.num 2 ≠ Value.table 7 :=
  ⟨rfl, rfl, rfl, rfl, fun h => Value.noConfusion h⟩

/-- Claim C2 (amended): when every top-level assignment of the code that
can rebind the reserved name `df` is one the Sanitizer drops (an
assignment whose first target is a plain name matching the reserved
pattern), executing the sanitized form never changes the `df` binding: the
environment still maps `df` to whatever the caller supplied. -/
theorem C2_df_preserved :
    ∀ (wl custom wb : List String) (stmts body : List Stmt) (deps : List Dependency)
      (env : Env),
      cleanStmts wl custom wb stmts = .ok (body, deps) →
      (∀ s ∈ stmts, stmtWritesName s "df" = true → isDfOverwrite s = true) →
      envGet (execStmts env body).1 "df" = envGet env "df" := by
  intro wl custom wb stmts body deps env hclean hguard
  refine execStmts_preserve "df" body env (fun s hs => ?_)
  rcases cleanStmts_mem wl custom wb stmts body deps hclean s hs with ⟨hmem, _, hdf⟩
  by_cases hw : stmtWritesName s "df" = true
  · rw [hguard s hmem hw] at hdf
    exact Bool.noConfusion hdf
  · exact Bool.eq_false_iff.mpr hw

/-- Closed instance of the amended claim C2: `df = 3; x = 1` sanitizes to
`x = 1`, and executing that leaves `df` bound to the input table. -/
theorem C2_witness :
    envGet (execStmts [("df", Value.table 7)] [sx]).1 "df" = some (Value.table 7) := by
  have h := C2_df_preserved [] [] [] [s1, sx] [sx] [] [("df", Value.table 7)] rfl ?_
  · exact h.trans rfl
  · intro s hs hw
    rcases List.mem_cons.mp hs with rfl | hs2
    · rfl
    · rcases List.mem_cons.mp hs2 with rfl | h3
      · exact Bool.noConfusion hw
      · cases h3

/-! ## Claim C3 -/

/-- Claim C3 counterexample: `import numpy, os` (with `numpy` whitelisted
and `os` in neither whitelist) sanitizes successfully instead of failing
with `UnapprovedImport` for `os`: only the first alias's module is
checked, and the dependency recorded for the `os` alias wrongly carries
module `numpy`. -/
theorem C3_counterexample :
    cleanStmts ["numpy"] [] [] [impNumpyOs]
      = .ok ([], [⟨"numpy", "numpy", "numpy"⟩, ⟨"numpy", "os", "os"⟩]) ∧
    (["numpy"] ++ ([] : List String)).contains "os" = false ∧
    ([] : List String).contains "os" = false :=
  ⟨rfl, rfl, rfl⟩

/-- Claim C3 (amended): `_check_imports` resolves one module per import
statement — the first alias's dotted name for a plain import, the source
module for a from-import.  If its top-level library is `pandas` the
statement is dropped with no dependency; if the library is whitelisted
(static list plus custom additions) the statement is dropped and one
dependency per alias is recorded with that module, the alias name, and
`asname or name`; if the library is in neither the whitelist nor the
builtin whitelist, sanitization fails with `UnapprovedImport` naming the
top-level library.  Aliases beyond the first of a plain import are never
independently checked.  Sanitization removes every import statement from
the output. -/
theorem C3_import_check :
    (∀ (wl custom wb : List String) (first : ImportAlias) (rest : List ImportAlias),
      (topLevel first.name = "pandas" →
        checkImports wl custom wb (.imp first rest) = .ok []) ∧
      (topLevel first.name ≠ "pandas" →
        (wl ++ custom).contains (topLevel first.name) = true →
        checkImports wl custom wb (.imp first rest)
          = .ok ((first :: rest).map (mkDep first.name))) ∧
      (topLevel first.name ≠ "pandas" →
        (wl ++ custom).contains (topLevel first.name) = false →
        wb.contains (topLevel first.name) = false →
        checkImports wl custom wb (.imp first rest)
          = .error (.badImport (topLevel first.name)))) ∧
    (∀ (wl custom wb : List String) (module : String) (first : ImportAlias)
        (rest : List ImportAlias),
      (topLevel module = "pandas" →
        checkImports wl custom wb (.impFrom module first rest) = .ok []) ∧
      (topLevel module ≠ "pandas" →
        (wl ++ custom).contains (topLevel module) = true →
        checkImports wl custom wb (.impFrom module first rest)
          = .ok ((first :: rest).map (mkDep module))) ∧
      (topLevel module ≠ "pandas" →
        (wl ++ custom).contains (topLevel module) = false →
        wb.contains (topLevel module) = false →
        checkImports wl custom wb (.impFrom module first rest)
          = .error (.badImport (topLevel module)))) ∧
    (∀ (wl custom wb : List String) (ss body : List Stmt) (deps : List Dependency),
      cleanStmts wl custom wb ss = .ok (body, deps) →
      ∀ s ∈ body, isImport s = false) := by
  refine ⟨?_, ?_, ?_⟩
  · intro wl custom wb first rest
    refine ⟨fun hp => ?_, fun hnp hin => ?_, fun hnp hnin hnb => ?_⟩
    · simp [checkImports, checkImports.checkImportsModule, hp]
    · have hin' : topLevel first.name ∈ wl ∨ topLevel first.name ∈ custom := by
        simpa using hin
      simp [checkImports, checkImports.checkImportsModule, hnp, hin']
    · have hnin' : ¬(topLevel first.name ∈ wl ∨ topLevel first.name ∈ custom) := by
        simpa using hnin
      have hnb' : topLevel first.name ∉ wb := by simpa using hnb
      simp [checkImports, checkImports.checkImportsModule, hnp, hnin', hnb']
  · intro wl custom wb module first rest
    refine ⟨fun hp => ?_, fun hnp hin => ?_, fun hnp hnin hnb => ?_⟩
    · simp [checkImports, checkImports.checkImportsModule, hp]
    · have hin' : topLevel module ∈ wl ∨ topLevel module ∈ custom := by
        simpa using hin
      simp [checkImports, checkImports.checkImportsModule, hnp, hin']
    · have hnin' : ¬(topLevel module ∈ wl ∨ topLevel module ∈ custom) := by
        simpa using hnin
      have hnb' : topLevel module ∉ wb := by simpa using hnb
      simp [checkImports, checkImports.checkImportsModule, hnp, hnin', hnb']
  · intro wl custom wb ss body deps h s hs
    exact (cleanStmts_mem wl custom wb ss body deps h s hs).2.1

/-- Closed instance of the amended claim C3: an aliased dotted import of a
whitelisted library records the correct dependency, and a from-import of
an unapproved library fails naming its top level. -/
theorem C3_witness :
    checkImports ["numpy"] [] ["print"] (.imp ⟨"numpy.linalg", some "la"⟩ [])
      = .ok [⟨"numpy.linalg", "numpy.linalg", "la"⟩] ∧
    checkImports ["numpy"] [] ["print"] (.impFrom "os.path" ⟨"join", Option.none⟩ [])
      = .error (.badImport "os") := by
  constructor
  · exact (C3_import_check.1 ["numpy"] [] ["print"] ⟨"numpy.linalg", some "la"⟩ []).2.1
      (by decide) (by decide)
  · exact (C3_import_check.2.1 ["numpy"] [] ["print"] "os.path" ⟨"join", Option.none⟩ []).2.2
      (by decide) (by decide) (by decide)

/-! ## Claim C4 -/

/-- Claim C4 counterexample: with error correction enabled and every
attempt failing (each raises `NameError: boom`), the loop does NOT re-raise
the last execution error — `run_code` returns `None` normally — and the
query's failure message embeds the downstream `len(None)` `TypeError`, not
the final execution error. -/
theorem C4_counterexample :
    (runCode cfg2 extBoom codeBoom (.single (.table 7)) true).succeeded = false ∧
    (runCode cfg2 extBoom codeBoom (.single (.table 7)) true).result = .ok Value.none ∧
    query cfg2 extBoom "q" (.table 7)
      = .message (failureMessage (.typeError "object of type NoneType has no len()")) ∧
    failureMessage (.typeError "object of type NoneType has no len()")
      ≠ failureMessage (.nameError "boom") := by
  refine ⟨rfl, rfl, rfl, ?_⟩
  decide

/-- Claim C4 (amended): with error correction enabled, exhausting the
budget never raises: `run_code` returns the value of the reserved output
binding left in the shared environment (`None` if never bound), and when
that value is `None` the query call returns the plain-text failure message
embedding the `TypeError` raised while inspecting the `None` result — not
the last execution error. -/
theorem C4_exhausted_returns_env_result :
    ∀ (cfg : Cfg) (ext : Ext) (q : String) (df : Value) (code code' : Code)
      (body : List Stmt) (deps : List Dependency),
      cfg.enableCache = false →
      cfg.saveCharts = false →
      cfg.useErrorCorrectionFramework = true →
      ext.llmGenerateCode q = .ok code →
      ext.middlewareChain code = .ok code' →
      cleanCode cfg.whitelistedLibraries cfg.customWhitelistedDependencies
        cfg.whitelistedBuiltins code' = .ok (body, deps) →
      (runCode cfg ext code' (.single df) true).succeeded = false →
      envGet (runCode cfg ext code' (.single df) true).env "result" = Option.none →
      (runCode cfg ext code' (.single df) true).result = .ok Value.none ∧
      query cfg ext q df
        = .message (failureMessage (.typeError "object of type NoneType has no len()")) := by
  intro cfg ext q df code code' body deps hcache hsave hecf hgen hmw hclean hfail hres
  have hok := runLoop_result_ok ext.llmCorrect code' cfg.maxRetries
    (envSet (getEnvironment deps) "df" df) (.prog body)
  have hrun : (runCode cfg ext code' (.single df) true).result = .ok Value.none := by
    rw [runCode_single_eq cfg ext code' df true body deps hsave hclean] at hres ⊢
    simp only at hres
    simp [hok, Except.map, hres]
  refine ⟨hrun, ?_⟩
  refine queryBody_lenErr cfg ext q df code code' Value.none _ hcache hgen hmw ?_ rfl
  rw [hecf]
  exact hrun

/-- Closed instance of the amended claim C4 at the always-failing
scenario. -/
theorem C4_witness :
    (runCode cfg2 extBoom codeBoom (.single (.table 7)) true).result = .ok Value.none ∧
    query cfg2 extBoom "q" (.table 7)
      = .message (failureMessage (.typeError "object of type NoneType has no len()")) :=
  C4_exhausted_returns_env_result cfg2 extBoom "q" (.table 7) codeBoom codeBoom
    [.exprStmt (.nameRef "boom")] [] rfl rfl rfl rfl rfl rfl rfl rfl

/-! ## Claim C6 -/

/-- Claim C6: every run of the query pipeline either completes normally —
and `query` returns exactly that answer — or raises some internal
exception, and `query` returns the plain-text failure message embedding
it; a query call never surfaces an exception to the caller. -/
theorem C6_outermost_boundary :
    ∀ (cfg : Cfg) (ext : Ext) (q : String) (df : Value),
      (∃ a, queryBody cfg ext q df = .ok a ∧ query cfg ext q df = a) ∨
      (∃ e, queryBody cfg ext q df = .error e ∧
        query cfg ext q df = .message (failureMessage e)) := by
  intro cfg ext q df
  rcases h : queryBody cfg ext q df with e | a
  · exact Or.inr ⟨e, rfl, by simp [query, h]⟩
  · exact Or.inl ⟨a, rfl, by simp [query, h]⟩

/-! ## Claim C7 -/

/-- Claim C7: evaluation of `run_code` at a multi-table input.  The
environment does bind `df1` and `df2`, but the sanitized code is never
executed (`execTrace = []`) and the call raises
`UnboundLocalError: result` — the function-level `return result` reads a
local that the multiple branch never assigns — instead of running the
code once and returning the output binding. -/
theorem C7_multi_table_never_executes :
    (runCode cfgPlain extBoom codeRes (.multiple [.table 1, .table 2]) true).result
      = .error (.unboundLocal "result") ∧
    (runCode cfgPlain extBoom codeRes (.multiple [.table 1, .table 2]) true).execTrace
      = [] ∧
    envGet (runCode cfgPlain extBoom codeRes (.multiple [.table 1, .table 2]) true).env "df1"
      = some (.table 1) ∧
    envGet (runCode cfgPlain extBoom codeRes (.multiple [.table 1, .table 2]) true).env "df2"
      = some (.table 2) :=
  ⟨rfl, rfl, rfl, rfl⟩

/-! ## Claim C8 -/

/-- Claim C8 counterexample: a binding created by a failed earlier attempt
IS visible to a later attempt.  Attempt 1 binds `marker` and then raises;
the corrected code of attempt 2 reads `marker` and succeeds — though the
same code fails with `NameError` in a freshly built environment — so the
attempts share one namespace rather than executing in fresh ones. -/
theorem C8_counterexample :
    (runCode cfg2 extSeen codeMarker (.single (.table 3)) true).succeeded = true ∧
    envGet (runCode cfg2 extSeen codeMarker (.single (.table 3)) true).env "seen"
      = some (.num 5) ∧
    (execCode (envSet (getEnvironment []) "df" (.table 3)) corrSeen).2
      = some (.nameError "marker") :=
  ⟨rfl, rfl, rfl⟩

/-- Claim C8 (amended): the execution environment is built once per
`run_code` call — from that call's dependency list and input table only,
so nothing persists across queries — and is then shared by every retry
attempt of the call: attempt `i + 1` starts from exactly the namespace
that attempt `i` left behind, mutations of failed attempts included. -/
theorem C8_shared_environment :
    ∀ (cfg : Cfg) (ext : Ext) (code : Code) (t : Value)
      (body : List Stmt) (deps : List Dependency),
      cfg.saveCharts = false →
      cleanCode cfg.whitelistedLibraries cfg.customWhitelistedDependencies
        cfg.whitelistedBuiltins code = .ok (body, deps) →
      (cfg.maxRetries ≠ 0 →
        (runCode cfg ext code (.single t) true).envTrace.get? 0
          = some (envSet (getEnvironment deps) "df" t)) ∧
      (∀ (i : Nat) (eI : Env) (cI : Code) (eNext : Env),
        (runCode cfg ext code (.single t) true).envTrace.get? i = some eI →
        (runCode cfg ext code (.single t) true).execTrace.get? i = some cI →
        (runCode cfg ext code (.single t) true).envTrace.get? (i + 1) = some eNext →
        eNext = (execCode eI cI).1) := by
  intro cfg ext code t body deps hsave hclean
  rw [runCode_single_eq cfg ext code t true body deps hsave hclean]
  exact ⟨fun hfz => runLoop_envTrace_head ext.llmCorrect true code cfg.maxRetries _ _ hfz,
    fun i eI cI eNext h1 h2 h3 =>
      runLoop_env_chain ext.llmCorrect true code cfg.maxRetries _ _ i eI cI eNext h1 h2 h3⟩

/-- Closed instance of the amended claim C8: the first attempt starts from
the freshly built environment, and the second attempt starts from exactly
the mutated environment the failed first attempt left behind. -/
theorem C8_witness :
    (runCode cfg2 extSeen codeMarker (.single (.table 3)) true).envTrace.get? 0
      = some (envSet (getEnvironment []) "df" (.table 3)) ∧
    (("marker", Value.num 5) :: envSet (getEnvironment []) "df" (.table 3) : Env)
      = (execCode (envSet (getEnvironment []) "df" (.table 3))
          (.prog [.assign (.name "marker") [] (.const (.num 5)),
            .exprStmt (.nameRef "boom")])).1 := by
  have h := C8_shared_environment cfg2 extSeen codeMarker (.table 3)
    [.assign (.name "marker") [] (.const (.num 5)), .exprStmt (.nameRef "boom")] [] rfl rfl
  exact ⟨h.1 (by decide), h.2 0 _ _ _ rfl rfl rfl⟩

/-! ## Claim C9 -/

/-- Claim C9: evaluation of `query` at a text-or-scalar result.  With
conversational-answer mode on, the output record is replaced by the
conversational string (or, under privacy enforcement, by the raw scalar)
and the subsequent `output["type"]` subscript raises `TypeError`, so the
query returns the failure message instead of the conversational sentence
(or the raw value); only with conversational mode off is the raw value
returned unchanged. -/
theorem C9_conversational_crash :
    query cfgConv extC9 "q" (.table 0)
      = .message (failureMessage (.typeError "string indices must be integers")) ∧
    query cfgConvPriv extC9 "q" (.table 0)
      = .message (failureMessage (.typeError "int object is not subscriptable")) ∧
    query cfgPlain extC9 "q" (.table 0) = .value (.num 42) :=
  ⟨rfl, rfl, rfl⟩

/-! ## Claim C10 -/

/-- Claim C10: when the sanitized code of a single-table query executes
without raising but never binds the reserved output name `result`,
`run_code` returns `None`, and the query call returns the standardized
plain-text failure message produced by the `TypeError` raised while
inspecting the `None` result — it never returns `None` to the caller. -/
theorem C10_missing_result_none_message :
    ∀ (cfg : Cfg) (ext : Ext) (q : String) (df : Value) (code code' : Code)
      (body : List Stmt) (deps : List Dependency),
      cfg.enableCache = false →
      cfg.saveCharts = false →
      0 < cfg.maxRetries →
      ext.llmGenerateCode q = .ok code →
      ext.middlewareChain code = .ok code' →
      cleanCode cfg.whitelistedLibraries cfg.customWhitelistedDependencies
        cfg.whitelistedBuiltins code' = .ok (body, deps) →
      (execStmts (envSet (getEnvironment deps) "df" df) body).2 = Option.none →
      envGet (execStmts (envSet (getEnvironment deps) "df" df) body).1 "result"
        = Option.none →
      (runCode cfg ext code' (.single df) cfg.useErrorCorrectionFramework).result
        = .ok Value.none ∧
      query cfg ext q df
        = .message (failureMessage (.typeError "object of type NoneType has no len()")) := by
  intro cfg ext q df code code' body deps hcache hsave hpos hgen hmw hclean hexec hres
  have hrun : (runCode cfg ext code' (.single df) cfg.useErrorCorrectionFramework).result
      = .ok Value.none := by
    rw [runCode_single_eq cfg ext code' df cfg.useErrorCorrectionFramework body deps
      hsave hclean]
    rcases Nat.exists_eq_succ_of_ne_zero (Nat.pos_iff_ne_zero.mp hpos) with ⟨n, hn⟩
    rw [hn]
    rcases hE : execCode (envSet (getEnvironment deps) "df" df) (.prog body) with ⟨env', err⟩
    have hE' : execStmts (envSet (getEnvironment deps) "df" df) body = (env', err) := hE
    have herr : err = Option.none := by
      rw [hE'] at hexec
      exact hexec
    have henv : envGet env' "result" = Option.none := by
      rw [hE'] at hres
      exact hres
    subst herr
    simp [runLoop, hE, Except.map, henv]
  refine ⟨hrun, queryBody_lenErr cfg ext q df code code' Value.none _ hcache hgen hmw hrun rfl⟩

/-- Closed instance of claim C10: code that binds only `x` leaves `result`
unbound; the query returns the standardized failure message. -/
theorem C10_witness :
    (runCode cfgPlain extSx (.prog [sx]) (.single (.table 7))
      cfgPlain.useErrorCorrectionFramework).result = .ok Value.none ∧
    query cfgPlain extSx "q" (.table 7)
      = .message (failureMessage (.typeError "object of type NoneType has no len()")) := by
  have h := C10_missing_result_none_message cfgPlain extSx "q" (.table 7)
    (.prog [sx]) (.prog [sx]) [sx] [] rfl rfl (by decide) rfl rfl rfl rfl rfl
  exact ⟨h.1, h.2⟩

end PandasAI
